import Mathlib

/-
Verification of the matching and ranking engine of the street-time-machine
repository (backend/app/enhanced_utils.py, backend/app/ai_vision.py,
backend/app/database.py).  Python float arithmetic is modelled exactly over
the real numbers (geodesy and scoring) and the rationals (location fusion
and confidence estimation); Python dictionaries with `.get` defaults are
modelled as structures, with `Option` fields where the code distinguishes a
missing key.
-/

namespace StreetTimeMachine

open Real

/-- Embedding of Python `math.atan2 y x`: the two-argument arctangent with
the quadrant conventions of the C library (`atan2(0, 0) = 0`). -/
noncomputable def atan2 (y x : ℝ) : ℝ :=
  if 0 < x then Real.arctan (y / x)
  else if x < 0 ∧ 0 ≤ y then Real.arctan (y / x) + Real.pi
  else if x < 0 ∧ y < 0 then Real.arctan (y / x) - Real.pi
  else if x = 0 ∧ 0 < y then Real.pi / 2
  else if x = 0 ∧ y < 0 then -(Real.pi / 2)
  else 0

/-- Embedding of Python `math.radians`. -/
noncomputable def radians (x : ℝ) : ℝ := x * Real.pi / 180

/-- Embedding of `enhanced_utils.calculate_distance` (haversine formula,
Earth radius 6371 km), lines 237-249 of enhanced_utils.py. -/
noncomputable def calculate_distance (lat1 lon1 lat2 lon2 : ℝ) : ℝ :=
  let R : ℝ := 6371
  let dlat := radians (lat2 - lat1)
  let dlon := radians (lon2 - lon1)
  let a := Real.sin (dlat / 2) * Real.sin (dlat / 2) +
    Real.cos (radians lat1) * Real.cos (radians lat2) *
    Real.sin (dlon / 2) * Real.sin (dlon / 2)
  let c := 2 * atan2 (Real.sqrt a) (Real.sqrt (1 - a))
  R * c

/-- Embedding of a record of `chicago_data.CHICAGO_HISTORICAL_PHOTOS`,
restricted to the keys the matching engine reads:
`latitude`, `longitude`, `viewing_direction_start` / `viewing_direction_end`
(read with defaults 0 / 360), `landmarks` (default `[]`) and
`historical_interest_score` (default 0.5).  The defaults of the Python
`.get` calls are applied when a record is constructed. -/
structure CatalogEntry where
  latitude : ℝ
  longitude : ℝ
  viewing_direction_start : ℝ
  viewing_direction_end : ℝ
  landmarks : List String
  historical_interest_score : ℝ

/-- Embedding of `enhanced_utils.filter_by_proximity` (lines 206-213). -/
noncomputable def filter_by_proximity (database : List CatalogEntry) (lat lon : ℝ)
    (radius_km : ℝ) : List CatalogEntry :=
  database.filter fun item =>
    decide (calculate_distance lat lon item.latitude item.longitude ≤ radius_km)

/-- Body of the loop of `enhanced_utils.filter_by_heading` (lines 221-233):
the candidate is kept when the user heading falls inside the viewing range
(with the wraparound branch taken when `start > end`), or lies within the
tolerance of either boundary. -/
noncomputable def headingMatches (c : CatalogEntry) (user_heading tolerance_degrees : ℝ) :
    Prop :=
  (if c.viewing_direction_start ≤ c.viewing_direction_end
    then c.viewing_direction_start ≤ user_heading ∧ user_heading ≤ c.viewing_direction_end
    else user_heading ≥ c.viewing_direction_start ∨ user_heading ≤ c.viewing_direction_end)
  ∨ |user_heading - c.viewing_direction_start| ≤ tolerance_degrees
  ∨ |user_heading - c.viewing_direction_end| ≤ tolerance_degrees

noncomputable instance headingMatchesDecidable (c : CatalogEntry)
    (user_heading tolerance_degrees : ℝ) :
    Decidable (headingMatches c user_heading tolerance_degrees) := by
  unfold headingMatches
  infer_instance

/-- Embedding of `enhanced_utils.filter_by_heading` (lines 215-235); a `none`
heading returns the candidate list unchanged, as in the Python `None` guard. -/
noncomputable def filter_by_heading (candidates : List CatalogEntry)
    (user_heading : Option ℝ) (tolerance_degrees : ℝ) : List CatalogEntry :=
  match user_heading with
  | none => candidates
  | some h => candidates.filter fun c => decide (headingMatches c h tolerance_degrees)

/-- Embedding of `len(set(ai_landmarks) & set(candidate_landmarks))`
(enhanced_utils.py line 176): the number of distinct strings common to the
two lists. -/
def landmark_matches_count (ai_landmarks candidate_landmarks : List String) : ℕ :=
  (ai_landmarks.dedup.filter fun s => decide (s ∈ candidate_landmarks)).length

/-- Embedding of a scored candidate dictionary (enhanced_utils.py lines
189-193): the copied catalog entry plus the keys `match_score`,
`distance_meters` and `landmark_matches` added by the scoring loop;
`match_method` is set only on the returned best match. -/
structure ScoredCandidate where
  entry : CatalogEntry
  match_score : ℝ
  distance_meters : ℝ
  landmark_matches : ℕ
  match_method : Option String

/-- Embedding of the scoring loop of `find_best_historical_match`
(enhanced_utils.py lines 165-194). -/
noncomputable def score_candidates (candidates : List CatalogEntry) (lat lon : ℝ)
    (ai_landmarks : List String) : List ScoredCandidate :=
  candidates.map fun candidate =>
    let distance := calculate_distance lat lon candidate.latitude candidate.longitude
    let distance_score := max 0 (1 - distance / 2)
    let lm := landmark_matches_count ai_landmarks candidate.landmarks
    let landmark_score := min ((lm : ℝ) * 0.3) 1.0
    let interest_score := candidate.historical_interest_score
    let combined_score := distance_score * 0.4 + landmark_score * 0.3 + interest_score * 0.3
    ⟨candidate, combined_score, distance * 1000, lm, none⟩

/-- Embedding of Python `max(iterable, key=...)` folded over the tail with
the head as seed: the current best is replaced only when a later element has
a strictly greater key, so the first maximal element wins ties. -/
noncomputable def pymax {α : Type} (key : α → ℝ) (best : α) : List α → α
  | [] => best
  | x :: xs => pymax key (if key best < key x then x else best) xs

/-- Embedding of the Match Scorer stage of `find_best_historical_match`
(enhanced_utils.py lines 165-204): score the candidates, then return
`max(scored_candidates, key=match_score)` with `match_method` set, or `None`
for an empty candidate list. -/
noncomputable def score_and_select (candidates : List CatalogEntry) (lat lon : ℝ)
    (ai_landmarks : List String) : Option ScoredCandidate :=
  match score_candidates candidates lat lon ai_landmarks with
  | [] => none
  | b :: rest =>
    some { pymax (fun x => x.match_score) b rest with
            match_method := some "comprehensive_ai_analysis" }

/-- Embedding of the Candidate Selector stage of `find_best_historical_match`
(enhanced_utils.py lines 148-162), with the hard-coded 1.0 km radius exposed
as a parameter: proximity filter, early empty return, then the heading filter
whose empty result falls back to the proximity-filtered list. -/
noncomputable def selectCandidates (historical_db : List CatalogEntry) (lat lon : ℝ)
    (heading : Option ℝ) (radius_km : ℝ) : List CatalogEntry :=
  let candidates := filter_by_proximity historical_db lat lon radius_km
  if candidates.isEmpty then []
  else
    match heading with
    | none => candidates
    | some h =>
      let heading_filtered := filter_by_heading candidates (some h) 60
      if heading_filtered.isEmpty then candidates else heading_filtered

/-- Embedding of a location dictionary with `latitude` / `longitude` keys. -/
structure LatLon where
  latitude : ℝ
  longitude : ℝ

/-- Embedding of the metadata dictionary as read by
`find_best_historical_match`: `best_location`, `gps`, `heading` and the AI
landmark list found under `enhanced_location.ai_analysis.landmarks`. -/
structure Metadata where
  best_location : Option LatLon
  gps : Option LatLon
  heading : Option ℝ
  ai_landmarks : List String

/-- Embedding of `metadata.get("best_location") or metadata.get("gps")`
(enhanced_utils.py line 134). -/
def resolve_location (metadata : Metadata) : Option LatLon :=
  match metadata.best_location with
  | some l => some l
  | none => metadata.gps

/-- Embedding of `enhanced_utils.find_best_historical_match` (lines 129-204)
with the module-level catalog `CHICAGO_HISTORICAL_PHOTOS` passed as the
`historical_db` parameter: resolve the location (`best_location or gps`),
return `None` without a location, otherwise select candidates at radius
1.0 km and run the scorer (which returns `None` on the empty list, matching
the early `return None` of the Python code). -/
noncomputable def find_best_historical_match (historical_db : List CatalogEntry)
    (metadata : Metadata) : Option ScoredCandidate :=
  match resolve_location metadata with
  | none => none
  | some location =>
    score_and_select
      (selectCandidates historical_db location.latitude location.longitude
        metadata.heading 1.0)
      location.latitude location.longitude metadata.ai_landmarks

/-- Embedding of the AI analysis dictionary as read by
`ai_vision.enhance_location_detection`: the `chicago_likelihood` score and
the `landmarks` list. -/
structure AIAnalysis where
  chicago_likelihood : ℚ
  landmarks : List String
deriving DecidableEq

/-- Embedding of a GPS / location dictionary flowing through
`enhance_location_detection`: coordinates, an optional `accuracy` key (read
with default 1000) and an optional `source` tag (present only on the
inferred fallback coordinate). -/
structure FusedLoc where
  latitude : ℚ
  longitude : ℚ
  accuracy : Option ℚ
  source : Option String
deriving DecidableEq

/-- Embedding of the `location_data` result dictionary of
`enhance_location_detection`. -/
structure LocationData where
  final_location : Option FusedLoc
  confidence_score : ℚ
deriving DecidableEq

/-- Embedding of `ai_vision.enhance_location_detection` (lines 194-239); the
AI analysis produced by the network call to `analyze_photo_with_ai` is taken
as an input, per the external vision interface.  The confidence accumulator
starts at 0.3; an accurate device GPS adds 0.4, else a present EXIF GPS adds
0.3; `chicago_likelihood > 0.6` adds 0.2; a non-empty landmark list adds
0.1; with no adopted location and `chicago_likelihood > 0.7` the fixed
downtown coordinate tagged `source="ai_inference"` is adopted and 0.2 is
added; finally the confidence is clamped to at most 0.95. -/
def enhance_location_detection (ai_analysis : AIAnalysis) (exif_gps : Option FusedLoc)
    (user_gps : Option FusedLoc) : LocationData :=
  let c0 : ℚ := 0.3
  let step12 : Option FusedLoc × ℚ :=
    match user_gps with
    | some u =>
      if u.accuracy.getD 1000 < 100 then (some u, c0 + 0.4)
      else
        match exif_gps with
        | some e => (some e, c0 + 0.3)
        | none => (none, c0)
    | none =>
      match exif_gps with
      | some e => (some e, c0 + 0.3)
      | none => (none, c0)
  let c2 := if ai_analysis.chicago_likelihood > 0.6 then step12.2 + 0.2 else step12.2
  let c3 := if ai_analysis.landmarks ≠ [] then c2 + 0.1 else c2
  let step5 : Option FusedLoc × ℚ :=
    if step12.1 = none ∧ ai_analysis.chicago_likelihood > 0.7 then
      (some ⟨41.8781, -87.6278, some 1000, some "ai_inference"⟩, c3 + 0.2)
    else (step12.1, c3)
  ⟨step5.1, min step5.2 0.95⟩

/-- Embedding of Python `int(q)`: truncation toward zero. -/
def pyint (q : ℚ) : ℤ := if 0 ≤ q then Int.floor q else Int.ceil q

/-- Embedding of the metadata keys read by
`enhanced_utils.calculate_confidence_score`: the fusion result
`enhanced_location.confidence_score` (read with default 0.3), the AI fields
`chicago_likelihood` (default 0) and `landmarks`, and the optional heading. -/
structure ConfMetadata where
  confidence_score : Option ℚ
  chicago_likelihood : Option ℚ
  ai_landmarks : List String
  heading : Option ℚ

/-- Embedding of the match keys read by `calculate_confidence_score`:
`distance_meters` (default 0), `landmark_matches` (default 0) and
`match_score` (default 0.5). -/
structure ConfMatch where
  distance_meters : Option ℚ
  landmark_matches : Option ℕ
  match_score : Option ℚ

/-- Embedding of `enhanced_utils.calculate_confidence_score` (lines 251-289):
base 50, plus `int(location_confidence * 30)`, +15 for
`chicago_likelihood > 0.7`, +10 for a non-empty AI landmark list, the
distance bonus / penalty ladder on `distance_meters / 1000`, +5 per landmark
match, +8 for a known heading, plus `int(match_score * 20)`, clamped to
[20, 95].  The sequential `base_confidence +=` updates of the Python code
are written as one sum, each guarded update contributing an `if`-guarded
addend. -/
def calculate_confidence_score (metadata : ConfMetadata) (m : ConfMatch) : ℤ :=
  let base := 50 + pyint (metadata.confidence_score.getD 0.3 * 30)
    + (if metadata.chicago_likelihood.getD 0 > 0.7 then 15 else 0)
    + (if metadata.ai_landmarks ≠ [] then 10 else 0)
    + (if m.distance_meters.getD 0 / 1000 < 0.2 then 20
       else if m.distance_meters.getD 0 / 1000 < 0.5 then 10
       else if m.distance_meters.getD 0 / 1000 > 1.5 then -15
       else 0)
    + (if m.landmark_matches.getD 0 > 0 then (m.landmark_matches.getD 0 : ℤ) * 5 else 0)
    + (if metadata.heading.isSome then 8 else 0)
    + pyint (m.match_score.getD 0.5 * 20)
  min (max base 20) 95

/-- Modelled from the spec (section 4.4): the additive confidence model
before clamping — base 50, plus `int(fusion_confidence × 30)`, +15 if the
locale likelihood exceeds 0.7, +10 if the AI landmark set is non-empty, a
distance bonus of +20 below 200 m, +10 below 500 m, -15 above 1500 m and 0
otherwise, plus 5 per overlapping landmark, +8 if the heading is known, plus
`int(composite_score × 20)`.  Stated only to be compared with the
function `calculate_confidence_score` of the code. -/
def confidence_additive_model (fusion_confidence locale_likelihood : ℚ)
    (ai_landmarks_nonempty : Bool) (distance_meters : ℚ)
    (landmark_overlap_count : ℕ) (heading_known : Bool) (composite_score : ℚ) : ℤ :=
  50 + pyint (fusion_confidence * 30)
    + (if locale_likelihood > 0.7 then 15 else 0)
    + (if ai_landmarks_nonempty then 10 else 0)
    + (if distance_meters < 200 then 20
       else if distance_meters < 500 then 10
       else if distance_meters > 1500 then -15
       else 0)
    + (landmark_overlap_count : ℤ) * 5
    + (if heading_known then 8 else 0)
    + pyint (composite_score * 20)

/-- Embedding of a `HistoricalPhoto` database row as read by
`database.find_photos_near_location`: coordinates and the `is_active` flag. -/
structure DBPhoto where
  latitude : ℝ
  longitude : ℝ
  is_active : Bool

/-- Stable insertion of an element into a list sorted by a real-valued key;
used to model the stable Python builtin `sorted(..., key=...)`. -/
noncomputable def insertByKey (key : DBPhoto → ℝ) (x : DBPhoto) :
    List DBPhoto → List DBPhoto
  | [] => [x]
  | y :: ys => if key x ≤ key y then x :: y :: ys else y :: insertByKey key x ys

/-- Stable insertion sort by a real-valued key, modelling Python `sorted`. -/
noncomputable def sortByKey (key : DBPhoto → ℝ) : List DBPhoto → List DBPhoto
  | [] => []
  | x :: xs => insertByKey key x (sortByKey key xs)

/-- Embedding of `database.find_photos_near_location` (lines 190-221) with
the SQL query modelled as a filter over the table rows: the bounding-box
pre-filter (`lat_delta = radius_km / 111.0`,
`lon_delta = radius_km / (111.0 * cos(radians(latitude)))`, inclusive
`BETWEEN` bounds, `is_active` check), then the exact haversine filter
(`database.calculate_distance` is line-for-line the same haversine as
`enhanced_utils.calculate_distance`), then the sort by distance. -/
noncomputable def find_photos_near_location (db : List DBPhoto)
    (latitude longitude : ℝ) (radius_km : ℝ) : List DBPhoto :=
  let lat_delta := radius_km / 111.0
  let lon_delta := radius_km / (111.0 * Real.cos (radians latitude))
  let min_lat := latitude - lat_delta
  let max_lat := latitude + lat_delta
  let min_lon := longitude - lon_delta
  let max_lon := longitude + lon_delta
  let photos := db.filter fun p =>
    decide (min_lat ≤ p.latitude ∧ p.latitude ≤ max_lat ∧
      min_lon ≤ p.longitude ∧ p.longitude ≤ max_lon ∧ p.is_active = true)
  let nearby_photos := photos.filter fun p =>
    decide (calculate_distance latitude longitude p.latitude p.longitude ≤ radius_km)
  sortByKey (fun p => calculate_distance latitude longitude p.latitude p.longitude)
    nearby_photos

/-- Concrete catalog entry at the equatorial origin with viewing arc 0-10
degrees, used in the examples below. -/
def arcEntry : CatalogEntry := ⟨0, 0, 0, 10, [], 0.5⟩

/-- Concrete catalog entry at the antipodal equator point (0, 180) with
viewing arc 170-190 degrees. -/
def farMatchEntry : CatalogEntry := ⟨0, 180, 170, 190, [], 0.5⟩

/-- Concrete catalog entry at (0, 180) with the default full viewing arc. -/
def cexFar : CatalogEntry := ⟨0, 180, 0, 360, [], 0.5⟩

/-- Concrete catalog entry at (0, 0.1) with the default full viewing arc. -/
def cexNear : CatalogEntry := ⟨0, 0.1, 0, 360, [], 0.5⟩

/-- Concrete catalog entry at the query point with the default full arc. -/
def cexSelf : CatalogEntry := ⟨0, 0, 0, 360, [], 0.5⟩

/-- The State Street catalog entry of the first record of
`chicago_data.CHICAGO_HISTORICAL_PHOTOS`, restricted to the keys the engine
reads: location (41.8781, -87.6278), wrapped viewing arc 350-10. -/
def stateStreetEntry : CatalogEntry :=
  ⟨41.8781, -87.6278, 350, 10, ["Chicago Theater", "State Street"], 0.95⟩

/-- Metadata of a query at the State Street coordinate with heading 5. -/
def scenarioAMetadata : Metadata := ⟨some ⟨41.8781, -87.6278⟩, none, some 5, []⟩

/-- Metadata of a query at (0, 180), far from the example catalog. -/
def farQueryMetadata : Metadata := ⟨some ⟨0, 180⟩, none, none, []⟩

/-- Active database photo row at latitude 60, longitude 180. -/
def lat60Photo : DBPhoto := ⟨60, 180, true⟩

lemma atan2_zero_pos {x : ℝ} (hx : 0 < x) : atan2 0 x = 0 := by
  rw [atan2, if_pos hx]
  simp

lemma atan2_zero_one : atan2 0 1 = 0 := atan2_zero_pos one_pos

lemma atan2_one_zero : atan2 1 0 = Real.pi / 2 := by
  rw [atan2, if_neg (lt_irrefl 0), if_neg (by simp), if_neg (by simp),
    if_pos ⟨rfl, one_pos⟩]

lemma atan2_sin_cos {θ : ℝ} (h1 : -(Real.pi / 2) < θ) (h2 : θ < Real.pi / 2) :
    atan2 (Real.sin θ) (Real.cos θ) = θ := by
  have hc : 0 < Real.cos θ := Real.cos_pos_of_mem_Ioo ⟨h1, h2⟩
  rw [atan2, if_pos hc, ← Real.tan_eq_sin_div_cos, Real.arctan_tan h1 h2]

lemma radians_neg (x : ℝ) : radians (-x) = -(radians x) := by
  unfold radians; ring

/-- Swapping the two coordinates negates `dlat` and `dlon` and swaps the two
cosine factors; the haversine value is unchanged. -/
lemma calculate_distance_comm (lat1 lon1 lat2 lon2 : ℝ) :
    calculate_distance lat1 lon1 lat2 lon2 = calculate_distance lat2 lon2 lat1 lon1 := by
  have e1 : lat2 - lat1 = -(lat1 - lat2) := by ring
  have e2 : lon2 - lon1 = -(lon1 - lon2) := by ring
  have e3 : ∀ x : ℝ, Real.sin (-x / 2) = -Real.sin (x / 2) := by
    intro x; rw [neg_div, Real.sin_neg]
  simp only [calculate_distance]
  rw [e1, e2, radians_neg, radians_neg, e3, e3]
  ring_nf

/-- At equal endpoints every haversine term vanishes and the distance is 0. -/
lemma calculate_distance_self (lat lon : ℝ) : calculate_distance lat lon lat lon = 0 := by
  unfold calculate_distance radians
  simp [atan2_zero_one]

/-- Along the equator the haversine distance is exactly `6371 * δ * π / 180`
for a longitude difference `δ ∈ [0, 180)`. -/
lemma calculate_distance_equator {δ : ℝ} (h0 : 0 ≤ δ) (h1 : δ < 180) :
    calculate_distance 0 0 0 δ = 6371 * (δ * Real.pi / 180) := by
  have hθ0 : 0 ≤ δ * Real.pi / 180 / 2 := by positivity
  have hθ1 : δ * Real.pi / 180 / 2 < Real.pi / 2 := by
    rw [div_lt_div_iff₀ (by norm_num) (by norm_num)]
    have := Real.pi_pos
    nlinarith
  have hs : 0 ≤ Real.sin (δ * Real.pi / 180 / 2) := by
    apply Real.sin_nonneg_of_nonneg_of_le_pi hθ0
    have := Real.pi_pos
    linarith
  have hc : 0 < Real.cos (δ * Real.pi / 180 / 2) :=
    Real.cos_pos_of_mem_Ioo ⟨by have := Real.pi_pos; linarith, hθ1⟩
  unfold calculate_distance radians
  simp only [sub_zero, sub_self, zero_mul, zero_div, Real.sin_zero, mul_zero, zero_add,
    Real.cos_zero, one_mul, mul_one]
  rw [Real.sqrt_mul_self hs]
  have h1ms : 1 - Real.sin (δ * Real.pi / 180 / 2) * Real.sin (δ * Real.pi / 180 / 2) =
      Real.cos (δ * Real.pi / 180 / 2) * Real.cos (δ * Real.pi / 180 / 2) := by
    have h := Real.sin_sq_add_cos_sq (δ * Real.pi / 180 / 2)
    nlinarith [h]
  rw [h1ms, Real.sqrt_mul_self (le_of_lt hc),
    atan2_sin_cos (by have := Real.pi_pos; linarith) hθ1]
  ring

/-- Antipodal points on the equator: the haversine term `a` equals 1 and the
distance is exactly `6371 * π`. -/
lemma calculate_distance_antipodal : calculate_distance 0 0 0 180 = 6371 * Real.pi := by
  unfold calculate_distance radians
  simp only [sub_zero, sub_self, zero_mul, zero_div, Real.sin_zero, mul_zero, zero_add,
    Real.cos_zero, one_mul, mul_one]
  rw [show (180:ℝ) * Real.pi / 180 / 2 = Real.pi / 2 by ring, Real.sin_pi_div_two]
  norm_num [atan2_one_zero]
  ring

/-- Two points at latitude 60 with longitudes 0 and 180: the haversine term
`a` equals 1/4 and the distance is exactly `6371 * π / 3`. -/
lemma calculate_distance_lat60 : calculate_distance 60 0 60 180 = 6371 * Real.pi / 3 := by
  have h14 : Real.sqrt (1 / 4 : ℝ) = 1 / 2 := by
    rw [show (1 / 4 : ℝ) = (1 / 2) * (1 / 2) by norm_num,
      Real.sqrt_mul_self (by norm_num : (0:ℝ) ≤ 1 / 2)]
  have h3 : Real.sqrt 3 * Real.sqrt 3 = 3 :=
    Real.mul_self_sqrt (by norm_num : (0:ℝ) ≤ 3)
  have h34 : Real.sqrt (3 / 4 : ℝ) = Real.sqrt 3 / 2 := by
    rw [show (3 / 4 : ℝ) = (Real.sqrt 3 / 2) * (Real.sqrt 3 / 2) from by
        rw [div_mul_div_comm, h3]; norm_num,
      Real.sqrt_mul_self (by positivity)]
  have hat : atan2 (1 / 2) (Real.sqrt 3 / 2) = Real.pi / 6 := by
    rw [← Real.sin_pi_div_six, ← Real.cos_pi_div_six,
      atan2_sin_cos (by have := Real.pi_pos; linarith) (by have := Real.pi_pos; linarith)]
  unfold calculate_distance radians
  simp only [sub_self, zero_mul, zero_div, Real.sin_zero, mul_zero, zero_add, sub_zero]
  rw [show (60:ℝ) * Real.pi / 180 = Real.pi / 3 by ring,
    show (180:ℝ) * Real.pi / 180 / 2 = Real.pi / 2 by ring,
    Real.cos_pi_div_three, Real.sin_pi_div_two]
  rw [show (1 / 2 : ℝ) * (1 / 2) * 1 * 1 = 1 / 4 by norm_num,
    show (1 : ℝ) - 1 / 4 = 3 / 4 by norm_num, h14, h34, hat]
  ring

/-- Characterisation of `pymax`: the seed-and-list sequence splits as
`l1 ++ m :: l2` where `m` is the returned element, every element before `m`
has a strictly smaller key (so the first maximum wins) and every element
after it has a key that is at most the key of `m`. -/
lemma pymax_split {α : Type} (key : α → ℝ) (b : α) (l : List α) :
    ∃ l1 l2, b :: l = l1 ++ pymax key b l :: l2 ∧
      (∀ y ∈ l1, key y < key (pymax key b l)) ∧
      (∀ y ∈ l2, key y ≤ key (pymax key b l)) := by
  induction l generalizing b with
  | nil => exact ⟨[], [], rfl, by simp, by simp⟩
  | cons x xs ih =>
    have hunf : pymax key b (x :: xs) = pymax key (if key b < key x then x else b) xs := rfl
    by_cases h : key b < key x
    · rw [hunf, if_pos h]
      obtain ⟨l1, l2, heq, hlt, hle⟩ := ih x
      refine ⟨b :: l1, l2, ?_, ?_, hle⟩
      · simpa using congrArg (List.cons b) heq
      · intro y hy
        rcases List.mem_cons.mp hy with rfl | hy2
        · rcases l1 with _ | ⟨a, t⟩
          · simp only [List.nil_append] at heq
            injection heq with h1 _
            rw [← h1]
            exact h
          · simp only [List.cons_append] at heq
            injection heq with h1 _
            have := hlt a (by simp)
            rw [← h1] at this
            exact lt_trans h this
        · exact hlt y hy2
    · rw [hunf, if_neg h]
      obtain ⟨l1, l2, heq, hlt, hle⟩ := ih b
      generalize hgm : pymax key b xs = m at heq hlt hle ⊢
      rcases l1 with _ | ⟨a, t⟩
      · simp only [List.nil_append] at heq
        injection heq with h1 h2
        refine ⟨[], x :: l2, ?_, by simp, ?_⟩
        · simp [← h1, ← h2]
        · intro y hy
          rcases List.mem_cons.mp hy with rfl | hy2
          · rw [← h1]
            exact le_of_not_lt h
          · exact hle y hy2
      · simp only [List.cons_append] at heq
        injection heq with h1 h2
        refine ⟨b :: x :: t, l2, ?_, ?_, hle⟩
        · rw [h2]
          simp
        · intro y hy
          have hbm : key b < key m := by
            have := hlt a (by simp)
            rw [← h1] at this
            exact this
          rcases List.mem_cons.mp hy with rfl | hy2
          · exact hbm
          rcases List.mem_cons.mp hy2 with rfl | hy3
          · exact lt_of_le_of_lt (le_of_not_lt h) hbm
          · exact hlt y (by simp [hy3])

/-- Membership in a keyed insertion is membership in the original list or
equality with the inserted element. -/
lemma mem_insertByKey (key : DBPhoto → ℝ) (x y : DBPhoto) (l : List DBPhoto) :
    y ∈ insertByKey key x l ↔ y = x ∨ y ∈ l := by
  induction l with
  | nil => simp [insertByKey]
  | cons z zs ih =>
    by_cases h : key x ≤ key z
    · simp [insertByKey, h]
    · simp only [insertByKey, if_neg h, List.mem_cons, ih]
      tauto

/-- The keyed insertion sort does not change list membership. -/
lemma mem_sortByKey (key : DBPhoto → ℝ) (y : DBPhoto) (l : List DBPhoto) :
    y ∈ sortByKey key l ↔ y ∈ l := by
  induction l with
  | nil => simp [sortByKey]
  | cons z zs ih =>
    simp [sortByKey, mem_insertByKey, ih]

/-- C9: the haversine distance of `calculate_distance` is symmetric in its
two coordinate arguments, and the distance from any coordinate to itself is
exactly 0. -/
theorem C9_distance_symmetric_and_self_zero :
    (∀ lat1 lon1 lat2 lon2 : ℝ,
      calculate_distance lat1 lon1 lat2 lon2 = calculate_distance lat2 lon2 lat1 lon1)
    ∧ ∀ lat lon : ℝ, calculate_distance lat lon lat lon = 0 :=
  ⟨calculate_distance_comm, calculate_distance_self⟩

/-- C10: for every combination of device GPS, EXIF GPS and AI analysis, the
confidence returned by `enhance_location_detection` lies in [0.3, 0.95]: the
accumulator starts at 0.3, every adjustment is a non-negative addition, and
the result is clamped above at 0.95. -/
theorem C10_fusion_confidence_bounds (ai : AIAnalysis)
    (exif_gps user_gps : Option FusedLoc) :
    3/10 ≤ (enhance_location_detection ai exif_gps user_gps).confidence_score ∧
    (enhance_location_detection ai exif_gps user_gps).confidence_score ≤ 95/100 := by
  rcases user_gps with _ | u <;> rcases exif_gps with _ | e <;>
    simp only [enhance_location_detection] <;> split_ifs <;>
    constructor <;> norm_num [min_def]

/-- Helper: the additive model of the spec, applied to the values the code
reads out of the metadata and match dictionaries, equals the pre-clamp base
value of the code addend by addend. -/
lemma confidence_model_eq_base (A L : ℚ) (lands : List String) (d : ℚ) (n : ℕ)
    (hb : Bool) (s : ℚ) :
    confidence_additive_model A L (!lands.isEmpty) d n hb s =
      50 + pyint (A * 30) + (if L > 0.7 then 15 else 0)
        + (if lands ≠ [] then 10 else 0)
        + (if d / 1000 < 0.2 then 20
           else if d / 1000 < 0.5 then 10
           else if d / 1000 > 1.5 then -15
           else 0)
        + (if n > 0 then (n : ℤ) * 5 else 0)
        + (if hb then 8 else 0) + pyint (s * 20) := by
  unfold confidence_additive_model
  have h1 : ((!lands.isEmpty) = true) ↔ lands ≠ [] := by simp
  have h2 : (d < 200) ↔ d / 1000 < 0.2 := by constructor <;> intro <;> linarith
  have h3 : (d < 500) ↔ d / 1000 < 0.5 := by constructor <;> intro <;> linarith
  have h4 : (d > 1500) ↔ d / 1000 > 1.5 := by constructor <;> intro <;> linarith
  have h5 : (n : ℤ) * 5 = if n > 0 then (n : ℤ) * 5 else 0 := by
    rcases Nat.eq_zero_or_pos n with h | h <;> simp [h]
  rw [if_congr h1 rfl rfl, if_congr h2 rfl (if_congr h3 rfl (if_congr h4 rfl rfl))]
  nth_rewrite 1 [h5]
  rfl

/-- C3: for all inputs, `calculate_confidence_score` equals the additive
model of the spec (base 50, `int(fusion_confidence*30)`, +15 for locale
likelihood over 0.7, +10 for a non-empty AI landmark set, the distance
bonus ladder, 5 per landmark overlap, +8 for a known heading,
`int(composite_score*20)`) clamped to [20, 95]; in particular the returned
value always lies in [20, 95]. -/
theorem C3_confidence_equals_clamped_model (metadata : ConfMetadata) (m : ConfMatch) :
    calculate_confidence_score metadata m =
      min (max (confidence_additive_model (metadata.confidence_score.getD 0.3)
        (metadata.chicago_likelihood.getD 0) (!metadata.ai_landmarks.isEmpty)
        (m.distance_meters.getD 0) (m.landmark_matches.getD 0)
        metadata.heading.isSome (m.match_score.getD 0.5)) 20) 95
    ∧ 20 ≤ calculate_confidence_score metadata m
    ∧ calculate_confidence_score metadata m ≤ 95 := by
  refine ⟨?_, ?_, ?_⟩
  · rw [confidence_model_eq_base]
    rfl
  · simp only [calculate_confidence_score]
    exact le_min (le_max_right _ _) (by norm_num)
  · simp only [calculate_confidence_score]
    exact min_le_right _ _

/-- Evaluation of the scoring loop on the two equal-score candidates: both
are beyond the 2 km decay range, share interest score 0.5 and have no
landmark overlap, so both composite scores are `0.15`. -/
lemma score_candidates_cex :
    score_candidates [cexFar, cexNear] 0 0 [] =
      [⟨cexFar, 3/20, 6371 * Real.pi * 1000, 0, none⟩,
       ⟨cexNear, 3/20, 6371 * (0.1 * Real.pi / 180) * 1000, 0, none⟩] := by
  have hnear : calculate_distance 0 0 0 0.1 = 6371 * (0.1 * Real.pi / 180) :=
    calculate_distance_equator (by norm_num) (by norm_num)
  have hπ := Real.pi_gt_three
  have hms_far : max (0:ℝ) (1 - 6371 * Real.pi / 2) = 0 := max_eq_left (by nlinarith)
  have hms_near : max (0:ℝ) (1 - 6371 * (0.1 * Real.pi / 180) / 2) = 0 :=
    max_eq_left (by nlinarith)
  have hmin : min (0:ℝ) 1.0 = 0 := min_eq_left (by norm_num)
  simp only [score_candidates, List.map_cons, List.map_nil, cexFar, cexNear,
    landmark_matches_count, List.dedup_nil, List.filter_nil, List.length_nil,
    calculate_distance_antipodal, hnear, hms_far, hms_near, Nat.cast_zero, zero_mul,
    hmin]
  norm_num

/-- C1 counterexample: on the candidate list `[cexFar, cexNear]` queried
from the origin with no AI landmarks, both candidates have the identical
maximal composite score 0.15, the scorer returns the first one (`cexFar`),
yet `cexNear` has the strictly smaller distance — so ties are not broken by
lowest distance. -/
theorem C1_counterexample :
    (score_candidates [cexFar, cexNear] 0 0 []).map ScoredCandidate.match_score =
      [3/20, 3/20] ∧
    (score_and_select [cexFar, cexNear] 0 0 []).map (fun m => m.entry) = some cexFar ∧
    calculate_distance 0 0 cexNear.latitude cexNear.longitude <
      calculate_distance 0 0 cexFar.latitude cexFar.longitude := by
  refine ⟨?_, ?_, ?_⟩
  · rw [score_candidates_cex]
    rfl
  · simp only [score_and_select, score_candidates_cex, pymax]
    norm_num
  · show calculate_distance 0 0 0 0.1 < calculate_distance 0 0 0 180
    rw [calculate_distance_antipodal,
      calculate_distance_equator (by norm_num) (by norm_num)]
    have := Real.pi_gt_three
    nlinarith

/-- C1 (amended): for every non-empty candidate list the Match Scorer
returns a candidate whose composite score is maximal; among equally scored
candidates the one earliest in the scored sequence is returned (Python
`max` keeps the first maximum), not the one with lowest distance. -/
theorem C1_scorer_max_first (candidates : List CatalogEntry) (lat lon : ℝ)
    (ai_landmarks : List String) (h : candidates ≠ []) :
    ∃ s l1 l2,
      score_and_select candidates lat lon ai_landmarks =
        some { s with match_method := some "comprehensive_ai_analysis" } ∧
      score_candidates candidates lat lon ai_landmarks = l1 ++ s :: l2 ∧
      (∀ y ∈ l1, y.match_score < s.match_score) ∧
      ∀ y ∈ score_candidates candidates lat lon ai_landmarks,
        y.match_score ≤ s.match_score := by
  obtain ⟨b, rest, heq⟩ : ∃ b rest,
      score_candidates candidates lat lon ai_landmarks = b :: rest := by
    rcases candidates with _ | ⟨c, cs⟩
    · exact absurd rfl h
    · exact ⟨_, _, rfl⟩
  obtain ⟨l1, l2, hsplit, hlt, hle⟩ := pymax_split (fun x => x.match_score) b rest
  refine ⟨pymax (fun x => x.match_score) b rest, l1, l2, ?_, ?_, hlt, ?_⟩
  · simp only [score_and_select, heq]
  · rw [heq]
    exact hsplit
  · intro y hy
    rw [heq, hsplit] at hy
    rcases List.mem_append.mp hy with h1 | h2
    · exact le_of_lt (hlt y h1)
    · rcases List.mem_cons.mp h2 with rfl | h3
      · exact le_refl _
      · exact hle y h3

/-- Witness for C1: the amended theorem applied to the singleton candidate
list `[cexSelf]` queried from the origin. -/
theorem C1_scorer_max_first_witness :
    (([cexSelf] : List CatalogEntry) ≠ []) ∧
    ∃ s l1 l2,
      score_and_select [cexSelf] 0 0 [] =
        some { s with match_method := some "comprehensive_ai_analysis" } ∧
      score_candidates [cexSelf] 0 0 [] = l1 ++ s :: l2 ∧
      (∀ y ∈ l1, y.match_score < s.match_score) ∧
      ∀ y ∈ score_candidates [cexSelf] 0 0 [], y.match_score ≤ s.match_score :=
  ⟨by simp, C1_scorer_max_first [cexSelf] 0 0 [] (by simp)⟩

/-- C2: whenever the proximity-filtered set is non-empty, a heading is
known, and the heading filter would return the empty list, the Candidate
Selector returns the pre-heading-filter set unchanged. -/
theorem C2_heading_fallback (db : List CatalogEntry) (lat lon hd radius_km : ℝ)
    (hne : filter_by_proximity db lat lon radius_km ≠ [])
    (hempty : filter_by_heading (filter_by_proximity db lat lon radius_km)
      (some hd) 60 = []) :
    selectCandidates db lat lon (some hd) radius_km =
      filter_by_proximity db lat lon radius_km := by
  simp only [selectCandidates, hempty]
  rw [if_neg (by simp [List.isEmpty_iff, hne])]
  simp

/-- Evaluation: the singleton catalog `[arcEntry]` survives the 1 km
proximity filter at its own location. -/
lemma filter_prox_arcEntry : filter_by_proximity [arcEntry] 0 0 1 = [arcEntry] := by
  have h : calculate_distance 0 0 arcEntry.latitude arcEntry.longitude ≤ 1 := by
    show calculate_distance 0 0 0 0 ≤ 1
    rw [calculate_distance_self]
    norm_num
  simp only [filter_by_proximity]
  rw [List.filter_cons, if_pos (decide_eq_true h), List.filter_nil]

/-- Evaluation: heading 180 is neither inside the 0-10 arc of `arcEntry`
nor within 60 degrees of its boundaries, so the heading filter empties the
singleton list. -/
lemma heading_filter_arcEntry_empty :
    filter_by_heading [arcEntry] (some 180) 60 = [] := by
  have h : ¬ headingMatches arcEntry 180 60 := by
    norm_num [headingMatches, arcEntry, abs_le]
  simp only [filter_by_heading]
  rw [List.filter_cons, if_neg (by simp [h]), List.filter_nil]

/-- Witness for C2: with the singleton catalog `[arcEntry]` queried at its
own location with heading 180, the proximity set is non-empty, the heading
filter empties it, and the selector returns the proximity set. -/
theorem C2_heading_fallback_witness :
    filter_by_proximity [arcEntry] 0 0 1 ≠ [] ∧
    filter_by_heading (filter_by_proximity [arcEntry] 0 0 1) (some 180) 60 = [] ∧
    selectCandidates [arcEntry] 0 0 (some 180) 1 =
      filter_by_proximity [arcEntry] 0 0 1 := by
  have h1 : filter_by_proximity [arcEntry] 0 0 1 ≠ [] := by
    rw [filter_prox_arcEntry]
    simp
  have h2 : filter_by_heading (filter_by_proximity [arcEntry] 0 0 1)
      (some 180) 60 = [] := by
    rw [filter_prox_arcEntry]
    exact heading_filter_arcEntry_empty
  exact ⟨h1, h2, C2_heading_fallback [arcEntry] 0 0 180 1 h1 h2⟩

/-- Evaluation: the far entry is excluded by the 1 km proximity filter. -/
lemma filter_prox_pair_small :
    filter_by_proximity [arcEntry, farMatchEntry] 0 0 1 = [arcEntry] := by
  have h1 : calculate_distance 0 0 arcEntry.latitude arcEntry.longitude ≤ 1 := by
    show calculate_distance 0 0 0 0 ≤ 1
    rw [calculate_distance_self]
    norm_num
  have h2 : ¬ calculate_distance 0 0 farMatchEntry.latitude farMatchEntry.longitude ≤ 1 := by
    show ¬ calculate_distance 0 0 0 180 ≤ 1
    rw [calculate_distance_antipodal]
    have := Real.pi_gt_three
    nlinarith
  simp only [filter_by_proximity]
  rw [List.filter_cons, if_pos (decide_eq_true h1), List.filter_cons,
    if_neg (by simp [h2]), List.filter_nil]

/-- Evaluation: at radius 30000 km both entries pass the proximity filter. -/
lemma filter_prox_pair_big :
    filter_by_proximity [arcEntry, farMatchEntry] 0 0 30000 = [arcEntry, farMatchEntry] := by
  have h1 : calculate_distance 0 0 arcEntry.latitude arcEntry.longitude ≤ 30000 := by
    show calculate_distance 0 0 0 0 ≤ 30000
    rw [calculate_distance_self]
    norm_num
  have h2 : calculate_distance 0 0 farMatchEntry.latitude farMatchEntry.longitude ≤ 30000 := by
    show calculate_distance 0 0 0 180 ≤ 30000
    rw [calculate_distance_antipodal]
    have := Real.pi_lt_d2
    nlinarith
  simp only [filter_by_proximity]
  rw [List.filter_cons, if_pos (decide_eq_true h1), List.filter_cons,
    if_pos (decide_eq_true h2), List.filter_nil]

/-- Evaluation: heading 180 lies inside the 170-190 arc of `farMatchEntry`
but fails for `arcEntry`, so the heading filter keeps exactly the far
entry. -/
lemma heading_filter_pair :
    filter_by_heading [arcEntry, farMatchEntry] (some 180) 60 = [farMatchEntry] := by
  have hno : ¬ headingMatches arcEntry 180 60 := by
    norm_num [headingMatches, arcEntry, abs_le]
  have hyes : headingMatches farMatchEntry 180 60 := by
    norm_num [headingMatches, farMatchEntry]
  simp only [filter_by_heading]
  rw [List.filter_cons, if_neg (by simp [hno]), List.filter_cons,
    if_pos (decide_eq_true hyes), List.filter_nil]

/-- C5 counterexample: on the catalog `[arcEntry, farMatchEntry]` queried at
the origin with heading 180, the selector at radius 1 returns `[arcEntry]`
(heading fallback fires), while at radius 30000 it returns
`[farMatchEntry]`; hence enlarging the radius loses `arcEntry` and the
superset property fails. -/
theorem C5_counterexample :
    (1:ℝ) ≤ 30000 ∧
    arcEntry ∈ selectCandidates [arcEntry, farMatchEntry] 0 0 (some 180) 1 ∧
    arcEntry ∉ selectCandidates [arcEntry, farMatchEntry] 0 0 (some 180) 30000 := by
  have hs1 : selectCandidates [arcEntry, farMatchEntry] 0 0 (some 180) 1 = [arcEntry] := by
    simp only [selectCandidates, filter_prox_pair_small]
    rw [if_neg (by simp)]
    simp [heading_filter_arcEntry_empty]
  have hs2 : selectCandidates [arcEntry, farMatchEntry] 0 0 (some 180) 30000 =
      [farMatchEntry] := by
    simp only [selectCandidates, filter_prox_pair_big]
    rw [if_neg (by simp)]
    simp [heading_filter_pair]
  refine ⟨by norm_num, ?_, ?_⟩
  · rw [hs1]
    simp
  · rw [hs2]
    norm_num [arcEntry, farMatchEntry]

/-- C5 (amended): enlarging the radius never shrinks the proximity-filtered
set; the full selector result at the larger radius contains the result at
the smaller radius whenever no heading is given, or the heading-filter
fallback fires at the larger radius whenever it fires at the smaller (the
counterexample shows the property fails when the fallback fires only at the
smaller radius). -/
theorem C5_radius_monotone (db : List CatalogEntry) (lat lon : ℝ) (heading : Option ℝ)
    (r1 r2 : ℝ) (hr : r1 ≤ r2)
    (hfb : ∀ hd, heading = some hd →
      filter_by_heading (filter_by_proximity db lat lon r1) (some hd) 60 = [] →
      filter_by_heading (filter_by_proximity db lat lon r2) (some hd) 60 = []) :
    (∀ c ∈ filter_by_proximity db lat lon r1, c ∈ filter_by_proximity db lat lon r2) ∧
    ∀ c ∈ selectCandidates db lat lon heading r1,
      c ∈ selectCandidates db lat lon heading r2 := by
  have hmono : ∀ c ∈ filter_by_proximity db lat lon r1,
      c ∈ filter_by_proximity db lat lon r2 := by
    intro c hc
    simp only [filter_by_proximity, List.mem_filter, decide_eq_true_eq] at hc ⊢
    exact ⟨hc.1, le_trans hc.2 hr⟩
  refine ⟨hmono, ?_⟩
  intro c hc
  rcases heading with _ | hd
  · by_cases hp1 : (filter_by_proximity db lat lon r1).isEmpty = true
    · simp [selectCandidates, hp1] at hc
    · simp only [selectCandidates] at hc
      rw [if_neg hp1] at hc
      have hc2 := hmono c hc
      have hne2 : filter_by_proximity db lat lon r2 ≠ [] := List.ne_nil_of_mem hc2
      simp only [selectCandidates]
      rw [if_neg (by simp [List.isEmpty_iff, hne2])]
      exact hc2
  · by_cases hp1 : (filter_by_proximity db lat lon r1).isEmpty = true
    · simp [selectCandidates, hp1] at hc
    · simp only [selectCandidates] at hc
      rw [if_neg hp1] at hc
      by_cases hf1 : (filter_by_heading (filter_by_proximity db lat lon r1)
          (some hd) 60).isEmpty = true
      · rw [if_pos hf1] at hc
        have hf2 : filter_by_heading (filter_by_proximity db lat lon r2)
            (some hd) 60 = [] := hfb hd rfl (List.isEmpty_iff.mp hf1)
        have hc2 := hmono c hc
        have hne2 : filter_by_proximity db lat lon r2 ≠ [] := List.ne_nil_of_mem hc2
        simp only [selectCandidates, hf2]
        rw [if_neg (by simp [List.isEmpty_iff, hne2])]
        simpa using hc2
      · rw [if_neg hf1] at hc
        have hsplit : c ∈ filter_by_proximity db lat lon r1 ∧
            decide (headingMatches c hd 60) = true := by
          simpa [filter_by_heading, List.mem_filter] using hc
        have hc2 := hmono c hsplit.1
        have hcf2 : c ∈ filter_by_heading (filter_by_proximity db lat lon r2)
            (some hd) 60 := by
          simp only [filter_by_heading, List.mem_filter]
          exact ⟨hc2, hsplit.2⟩
        have hne2 : filter_by_proximity db lat lon r2 ≠ [] := List.ne_nil_of_mem hc2
        simp only [selectCandidates]
        rw [if_neg (by simp [List.isEmpty_iff, hne2]),
          if_neg (by simp [List.isEmpty_iff, List.ne_nil_of_mem hcf2])]
        exact hcf2

/-- Witness for C5: the singleton catalog queried at its own location with
no heading, radii 1 and 2. -/
theorem C5_radius_monotone_witness :
    ((1:ℝ) ≤ 2) ∧
    ((∀ c ∈ filter_by_proximity [arcEntry] 0 0 1, c ∈ filter_by_proximity [arcEntry] 0 0 2) ∧
     ∀ c ∈ selectCandidates [arcEntry] 0 0 none 1,
       c ∈ selectCandidates [arcEntry] 0 0 none 2) :=
  ⟨by norm_num, C5_radius_monotone [arcEntry] 0 0 none 1 2 (by norm_num)
    (by intro hd h; exact Option.noConfusion h)⟩

/-- C6: whenever the resolved query location has an empty 1.0 km proximity
filter over the catalog, the matcher returns `none` — no radius widening,
and the function is total, so no exception is possible. -/
theorem C6_empty_proximity_no_match (db : List CatalogEntry) (metadata : Metadata)
    (l : LatLon) (hl : resolve_location metadata = some l)
    (hp : filter_by_proximity db l.latitude l.longitude 1.0 = []) :
    find_best_historical_match db metadata = none := by
  simp only [find_best_historical_match, hl]
  simp [selectCandidates, hp, score_and_select, score_candidates]

/-- Witness for C6: the singleton catalog `[arcEntry]` at the origin queried
from the antipodal point (0, 180), which is about 20015 km away. -/
theorem C6_empty_proximity_no_match_witness :
    resolve_location farQueryMetadata = some ⟨0, 180⟩ ∧
    filter_by_proximity [arcEntry] (LatLon.mk 0 180).latitude
      (LatLon.mk 0 180).longitude 1.0 = [] ∧
    find_best_historical_match [arcEntry] farQueryMetadata = none := by
  have hl : resolve_location farQueryMetadata = some ⟨0, 180⟩ := rfl
  have hd : ¬ calculate_distance 0 180 arcEntry.latitude arcEntry.longitude ≤ (1.0:ℝ) := by
    show ¬ calculate_distance 0 180 0 0 ≤ (1.0:ℝ)
    rw [calculate_distance_comm, calculate_distance_antipodal]
    have := Real.pi_gt_three
    nlinarith
  have hp : filter_by_proximity [arcEntry] (LatLon.mk 0 180).latitude
      (LatLon.mk 0 180).longitude 1.0 = [] := by
    simp only [filter_by_proximity]
    rw [List.filter_cons, if_neg (by simp [hd]), List.filter_nil]
  exact ⟨hl, hp, C6_empty_proximity_no_match [arcEntry] farQueryMetadata ⟨0, 180⟩ hl hp⟩

/-- C8: with the singleton catalog holding the State Street entry at
(41.8781, -87.6278) with wrapped viewing arc 350-10, a query at the same
point with heading 5 passes the heading filter (wraparound branch,
`start > end`, `5 <= end`) and the matcher selects that entry. -/
theorem C8_wrapped_arc_scenario :
    filter_by_heading [stateStreetEntry] (some 5) 60 = [stateStreetEntry] ∧
    (find_best_historical_match [stateStreetEntry] scenarioAMetadata).map
      (fun m => m.entry) = some stateStreetEntry := by
  have hyes : headingMatches stateStreetEntry 5 60 := by
    norm_num [headingMatches, stateStreetEntry, abs_le]
  have hfe : filter_by_heading [stateStreetEntry] (some 5) 60 = [stateStreetEntry] := by
    simp only [filter_by_heading]
    rw [List.filter_cons, if_pos (decide_eq_true hyes), List.filter_nil]
  have hd0 : calculate_distance 41.8781 (-87.6278) stateStreetEntry.latitude
      stateStreetEntry.longitude ≤ (1.0:ℝ) := by
    show calculate_distance 41.8781 (-87.6278) 41.8781 (-87.6278) ≤ (1.0:ℝ)
    rw [calculate_distance_self]
    norm_num
  have hprox : filter_by_proximity [stateStreetEntry] 41.8781 (-87.6278) 1.0 =
      [stateStreetEntry] := by
    simp only [filter_by_proximity]
    rw [List.filter_cons, if_pos (decide_eq_true hd0), List.filter_nil]
  have hsel : selectCandidates [stateStreetEntry] 41.8781 (-87.6278) (some 5) 1.0 =
      [stateStreetEntry] := by
    simp only [selectCandidates, hprox, hfe]
    rw [if_neg (by simp)]
    simp
  refine ⟨hfe, ?_⟩
  simp only [find_best_historical_match,
    show resolve_location scenarioAMetadata = some ⟨41.8781, -87.6278⟩ from rfl]
  rw [show scenarioAMetadata.heading = some 5 from rfl,
    show scenarioAMetadata.ai_landmarks = [] from rfl, hsel]
  simp [score_and_select, score_candidates, pymax]

/-- C7 counterexample: at center (60, 0) with radius 6672 km, the active
entry at (60, 180) lies within the haversine radius (distance
`6371π/3 ≈ 6671.7` km) but outside the longitude bounding box
(`lon_delta = 6672 / 55.5 ≈ 120.2` degrees), so the query excludes an
in-radius entry and is not exactly the haversine-radius set. -/
theorem C7_counterexample :
    lat60Photo.is_active = true ∧
    calculate_distance 60 0 lat60Photo.latitude lat60Photo.longitude ≤ 6672 ∧
    lat60Photo ∉ find_photos_near_location [lat60Photo] 60 0 6672 := by
  refine ⟨rfl, ?_, ?_⟩
  · rw [show calculate_distance 60 0 lat60Photo.latitude lat60Photo.longitude =
        6371 * Real.pi / 3 from calculate_distance_lat60]
    have := Real.pi_lt_d6
    nlinarith
  · have hcos : Real.cos (radians 60) = 1 / 2 := by
      rw [show radians 60 = Real.pi / 3 from by unfold radians; ring]
      exact Real.cos_pi_div_three
    simp only [find_photos_near_location, hcos, mem_sortByKey, List.mem_filter,
      decide_eq_true_eq]
    intro hmem
    obtain ⟨⟨_, _, _, _, hlon, _⟩, _⟩ := hmem
    norm_num [lat60Photo] at hlon

/-- C7 (amended): the radius query returns exactly the active entries that
satisfy both the bounding-box bounds and the exact haversine check; this is
always a subset of the true haversine-radius set, but (per the
counterexample) the bounding box can exclude in-radius entries, so equality
with the haversine-radius set fails in general. -/
theorem C7_radius_query_membership (db : List DBPhoto) (lat lon r : ℝ) (p : DBPhoto) :
    p ∈ find_photos_near_location db lat lon r ↔
      p ∈ db ∧ p.is_active = true ∧
      lat - r / 111 ≤ p.latitude ∧ p.latitude ≤ lat + r / 111 ∧
      lon - r / (111 * Real.cos (radians lat)) ≤ p.longitude ∧
      p.longitude ≤ lon + r / (111 * Real.cos (radians lat)) ∧
      calculate_distance lat lon p.latitude p.longitude ≤ r := by
  have h111 : (111.0 : ℝ) = 111 := by norm_num
  simp only [find_photos_near_location, mem_sortByKey, List.mem_filter,
    decide_eq_true_eq, h111]
  tauto

/-- C4 counterexample: in the no-GPS scenario with locale likelihood 0.75
and a non-empty landmark list, fusion adopts the fixed downtown fallback
coordinate with confidence 0.8 exactly as the claim computes, but the
adopted coordinate is tagged `source="ai_inference"`, not
`"area_inference"`. -/
theorem C4_counterexample :
    (enhance_location_detection ⟨0.75, ["Navy Pier"]⟩ none none).final_location =
      some ⟨41.8781, -87.6278, some 1000, some "ai_inference"⟩ ∧
    (enhance_location_detection ⟨0.75, ["Navy Pier"]⟩ none none).confidence_score = 0.8 ∧
    (some "ai_inference" : Option String) ≠ some "area_inference" := by
  refine ⟨?_, ?_, by simp⟩ <;> norm_num [enhance_location_detection, min_def]

/-- C4 (amended): whenever no location was adopted from device or EXIF GPS
(device GPS absent or inaccurate, EXIF GPS absent) and the locale likelihood
exceeds 0.7, fusion adopts the fixed fallback city-center coordinate tagged
`source="ai_inference"` (the tag used by the code; the spec calls it
`area_inference`), adding 0.2 for the adoption on top of the 0.2 likelihood
bonus — confidence 0.7, or 0.8 with a non-empty landmark list. -/
theorem C4_area_fallback (ai : AIAnalysis) (exif_gps user_gps : Option FusedLoc)
    (hu : ∀ u, user_gps = some u → ¬ u.accuracy.getD 1000 < 100)
    (he : exif_gps = none) (hl : ai.chicago_likelihood > 0.7) :
    (enhance_location_detection ai exif_gps user_gps).final_location =
      some ⟨41.8781, -87.6278, some 1000, some "ai_inference"⟩ ∧
    (enhance_location_detection ai exif_gps user_gps).confidence_score =
      (if ai.landmarks = [] then 0.7 else 0.8) := by
  have h6 : ai.chicago_likelihood > 0.6 := lt_trans (by norm_num) hl
  subst he
  rcases user_gps with _ | u
  · simp only [enhance_location_detection]
    rw [if_pos h6, if_pos ⟨trivial, hl⟩]
    by_cases hland : ai.landmarks = [] <;> simp [hland] <;> norm_num [min_def]
  · have hacc : ¬ u.accuracy.getD 1000 < 100 := hu u rfl
    simp only [enhance_location_detection]
    rw [if_neg hacc, if_pos h6, if_pos ⟨rfl, hl⟩]
    by_cases hland : ai.landmarks = [] <;> simp [hland] <;> norm_num [min_def]

/-- Witness for C4 (amended): the no-GPS scenario with likelihood 0.75 and
landmark list `["Navy Pier"]`. -/
theorem C4_area_fallback_witness :
    (∀ u, (none : Option FusedLoc) = some u → ¬ u.accuracy.getD 1000 < 100) ∧
    ((none : Option FusedLoc) = none) ∧
    ((0.75:ℚ) > 0.7) ∧
    ((enhance_location_detection ⟨0.75, ["Navy Pier"]⟩ none none).final_location =
      some ⟨41.8781, -87.6278, some 1000, some "ai_inference"⟩ ∧
    (enhance_location_detection ⟨0.75, ["Navy Pier"]⟩ none none).confidence_score =
      (if (["Navy Pier"] : List String) = [] then 0.7 else 0.8)) :=
  ⟨fun u h => Option.noConfusion h, rfl, by norm_num,
    C4_area_fallback ⟨0.75, ["Navy Pier"]⟩ none none
      (fun u h => Option.noConfusion h) rfl (by norm_num)⟩

end StreetTimeMachine
